import Mathlib

/-!
Verification development for the groundwater chatbot repository
(`frontend/chatbot.py`).  The Python code is shallowly embedded: text is
modelled as `List Char`, pandas dataframes as lists of row structures,
machine floats as exact rationals (`ℚ`), and the two transcendental
floating-point operations used by the trend engine (`np.sin`, the square
root inside a standard deviation) as explicit function parameters
(`FloatOps`), since every claim under study is independent of their
values.  The `np.random.choice` call in the greeting handler is modelled
by an explicit natural-number draw threaded into `generate_response`.
-/

set_option maxHeartbeats 1000000
set_option maxRecDepth 4000

/-- Text is a list of characters (Python `str`). -/
abbrev Str := List Char

/-- String literal to character-list conversion helper. -/
def s2l (s : String) : Str := s.toList

/-- ASCII lower-casing of one character (models `str.lower` on the ASCII
inputs this program deals with). -/
def lowerChar (c : Char) : Char :=
  if 'A' ≤ c && c ≤ 'Z' then Char.ofNat (c.toNat + 32) else c

/-- ASCII upper-casing of one character. -/
def upperChar (c : Char) : Char :=
  if 'a' ≤ c && c ≤ 'z' then Char.ofNat (c.toNat - 32) else c

/-- Models `text.lower()`. -/
def lowerStr (s : Str) : Str := s.map lowerChar

/-- Python substring test `needle in hay`. -/
def containsSub (hay needle : Str) : Bool :=
  match hay with
  | [] => needle.isEmpty
  | _ :: t => needle.isPrefixOf hay || containsSub t needle

/-- Python `str.title()`: letters that follow a letter are lower-cased,
letters that follow a non-letter (or start the string) are upper-cased. -/
def titleStr (s : Str) : Str :=
  (s.foldl (fun (acc : Str × Bool) c =>
    (acc.1 ++ [if acc.2 then lowerChar c else upperChar c], c.isAlpha))
    ([], false)).1

/-- Whitespace trimming, models `str.strip()` (ASCII whitespace). -/
def trimStr (s : Str) : Str :=
  (s.dropWhile (·.isWhitespace)).reverse.dropWhile (·.isWhitespace) |>.reverse

/-- Word character for the `\b` anchors of Python's `re` (ASCII case). -/
def isWordChar (c : Char) : Bool := c.isAlphanum || c == '_'

/-- A `\b` boundary immediately before a word character holds when the
previous character is absent or is not a word character. -/
def boundaryOk (prev : Option Char) : Bool :=
  match prev with
  | none => true
  | some c => !isWordChar c

/-- Lexicographic code-point order on strings (Python `str` `<=`). -/
def strLe : Str → Str → Bool
  | [], _ => true
  | _ :: _, [] => false
  | a :: as, b :: bs =>
    if a.toNat < b.toNat then true
    else if b.toNat < a.toNat then false
    else strLe as bs

/-- Stable insertion of `x` after all already-placed elements `y` with
`le y x` (so equal elements keep their original relative order). -/
def stableIns (le : α → α → Bool) (x : α) : List α → List α
  | [] => [x]
  | y :: ys => if le y x then y :: stableIns le x ys else x :: y :: ys

/-- Stable ascending sort, models Python `sorted` / pandas `sort_values`. -/
def stableSort (le : α → α → Bool) (l : List α) : List α :=
  l.foldl (fun acc x => stableIns le x acc) []

/-- Models `pandas.unique`: keep the first occurrence of each element
(structural accumulator formulation). -/
def dedupFirstAux [DecidableEq α] (seen : List α) : List α → List α
  | [] => []
  | x :: xs =>
    if x ∈ seen then dedupFirstAux seen xs
    else x :: dedupFirstAux (x :: seen) xs

/-- Models `pandas.unique`: keep the first occurrence of each element. -/
def dedupFirst [DecidableEq α] (l : List α) : List α := dedupFirstAux [] l

/-- Models `df.tail(n)`: the last `n` elements. -/
def tailN (n : ℕ) (l : List α) : List α := l.drop (l.length - n)

/-- Digits of a decimal string, most significant first, as a natural. -/
def digitsToNat (s : Str) : ℕ := s.foldl (fun n c => 10 * n + (c.toNat - 48)) 0

/-- Longest digit prefix and the remaining suffix. -/
def takeDigits : Str → Str × Str
  | [] => ([], [])
  | c :: cs =>
    if c.isDigit then
      let p := takeDigits cs
      (c :: p.1, p.2)
    else ([], c :: cs)

/-- Models `float(...)` of a captured numeric group (digits, optional dot,
digits); exact rational semantics stand in for IEEE parsing, which agrees
on every literal this program's claims exercise. -/
def parseDec (g : Str) : ℚ :=
  let p := takeDigits g
  match p.2 with
  | '.' :: fp => (digitsToNat p.1 : ℚ) + (digitsToNat fp : ℚ) / (10 : ℚ) ^ fp.length
  | _ => (digitsToNat p.1 : ℚ)

/-! ### The three regular expressions of `extract_entities` -/

/-- One attempt of `\b(20\d{2})(?:-(\d{2}))?\b` at the current position
(`prev` is the character just before it); returns capture group 1.
When the greedy optional `-\d\d` suffix fails or breaks the trailing
`\b`, the engine backtracks to the bare 4-digit form, whose trailing
boundary is then the `-` itself; hence a following `-` always succeeds. -/
def yearAt (prev : Option Char) (s : Str) : Option Str :=
  match s with
  | '2' :: '0' :: a :: b :: rest =>
    if boundaryOk prev && a.isDigit && b.isDigit then
      match rest with
      | [] => some ['2', '0', a, b]
      | c :: _ => if !isWordChar c then some ['2', '0', a, b] else none
    else none
  | _ => none

/-- Models `re.search` of the year pattern: first matching position wins. -/
def yearSearch (prev : Option Char) : Str → Option Str
  | [] => none
  | c :: rest =>
    match yearAt prev (c :: rest) with
    | some g => some g
    | none => yearSearch (some c) rest

/-- One attempt of `\b(0[1-9]|1[0-2])-(20\d{2})\b`; returns the pair of
capture groups (month digits, year digits). -/
def monthAt (prev : Option Char) (s : Str) : Option (Str × Str) :=
  match s with
  | m1 :: m2 :: '-' :: '2' :: '0' :: a :: b :: rest =>
    if boundaryOk prev
        && ((m1 == '0' && '1' ≤ m2 && m2 ≤ '9') || (m1 == '1' && '0' ≤ m2 && m2 ≤ '2'))
        && a.isDigit && b.isDigit
        && (match rest with | [] => true | c :: _ => !isWordChar c) then
      some ([m1, m2], ['2', '0', a, b])
    else none
  | _ => none

/-- Models `re.search` of the month pattern. -/
def monthSearch (prev : Option Char) : Str → Option (Str × Str)
  | [] => none
  | c :: rest =>
    match monthAt prev (c :: rest) with
    | some g => some g
    | none => monthSearch (some c) rest

/-- The optional unit suffix `(?:mm|m|cm|km)?`, alternatives tried in the
written order; returns the remainder after the consumed suffix. -/
def consumeUnit (s : Str) : Str :=
  match s with
  | c :: d :: r =>
    if c == 'm' && d == 'm' then r
    else if c == 'm' then d :: r
    else if (c == 'c' || c == 'k') && d == 'm' then r
    else c :: d :: r
  | [c] => if c == 'm' then [] else [c]
  | [] => []

/-- One match attempt of `(\d+\.?\d*)(?:mm|m|cm|km)?`: the captured
group together with the remainder of the text after the whole match
(the greedy optional `\.?` consumes a dot exactly when one follows the
integer digits, then `\d*` takes the fractional digits). -/
def numTokenAt (s : Str) : Option (Str × Str) :=
  match s with
  | [] => none
  | c :: cs =>
    if c.isDigit then
      let p := takeDigits cs
      if p.2.head? == some '.' then
        let q := takeDigits (p.2.drop 1)
        some (c :: p.1 ++ '.' :: q.1, consumeUnit q.2)
      else some (c :: p.1, consumeUnit p.2)
    else none

theorem takeDigits_snd_length (s : Str) : (takeDigits s).2.length ≤ s.length := by
  induction s with
  | nil => simp [takeDigits]
  | cons c cs ih =>
    simp only [takeDigits]
    by_cases h : c.isDigit
    · simp [h]; omega
    · simp [h]

theorem consumeUnit_length (s : Str) : (consumeUnit s).length ≤ s.length := by
  unfold consumeUnit
  split
  · split
    · simp only [List.length_cons]; omega
    · split
      · simp only [List.length_cons]; omega
      · split
        · simp only [List.length_cons]; omega
        · exact le_rfl
  · split
    · simp
    · exact le_rfl
  · exact le_rfl

theorem numTokenAt_rest_length {s : Str} {gr : Str × Str}
    (h : numTokenAt s = some gr) : 0 < s.length ∧ gr.2.length < s.length := by
  match s with
  | [] => simp [numTokenAt] at h
  | c :: cs =>
    simp only [numTokenAt] at h
    by_cases hc : c.isDigit
    · simp only [hc, if_pos] at h
      refine ⟨by simp, ?_⟩
      have h1 : (takeDigits cs).2.length ≤ cs.length := takeDigits_snd_length cs
      by_cases hdot : (takeDigits cs).2.head? == some '.'
      · rw [if_pos hdot] at h
        have h2 : (takeDigits ((takeDigits cs).2.drop 1)).2.length ≤
            ((takeDigits cs).2.drop 1).length := takeDigits_snd_length _
        have h3 : (consumeUnit (takeDigits ((takeDigits cs).2.drop 1)).2).length ≤
            (takeDigits ((takeDigits cs).2.drop 1)).2.length := consumeUnit_length _
        have h4 : 0 < (takeDigits cs).2.length := by
          cases he : (takeDigits cs).2 with
          | nil => rw [he] at hdot; simp at hdot
          | cons x xs => simp
        have h5 : gr.2 = consumeUnit (takeDigits ((takeDigits cs).2.drop 1)).2 := by
          cases h; rfl
        have h6 : ((takeDigits cs).2.drop 1).length = (takeDigits cs).2.length - 1 := by
          simp
        rw [h5]; simp only [List.length_cons]; omega
      · rw [if_neg hdot] at h
        have h3 : (consumeUnit (takeDigits cs).2).length ≤ (takeDigits cs).2.length :=
          consumeUnit_length _
        have h5 : gr.2 = consumeUnit (takeDigits cs).2 := by cases h; rfl
        rw [h5]; simp only [List.length_cons]; omega
    · simp [hc] at h

/-- Fuel-indexed scanner behind `numTokens`; every step consumes at
least one character, so fuel `s.length` is always sufficient. -/
def numTokensAux : ℕ → Str → List Str
  | 0, _ => []
  | _, [] => []
  | fuel + 1, c :: cs =>
    match numTokenAt (c :: cs) with
    | some gr => gr.1 :: numTokensAux fuel gr.2
    | none => numTokensAux fuel cs

/-- Models `re.findall` of the number pattern: the list of captured groups of the
non-overlapping matches, scanned left to right. -/
def numTokens (s : Str) : List Str := numTokensAux s.length s

theorem numTokensAux_congr :
    ∀ (f1 : ℕ) (s : Str) (f2 : ℕ), s.length ≤ f1 → s.length ≤ f2 →
      numTokensAux f1 s = numTokensAux f2 s := by
  intro f1
  induction f1 with
  | zero =>
    intro s f2 h1 _
    have : s = [] := List.eq_nil_of_length_eq_zero (by omega)
    subst this
    cases f2 <;> rfl
  | succ f1 ih =>
    intro s f2 h1 h2
    cases s with
    | nil => cases f2 <;> rfl
    | cons c cs =>
      cases f2 with
      | zero => simp at h2
      | succ f2 =>
        simp only [numTokensAux]
        cases hA : numTokenAt (c :: cs) with
        | some gr =>
          have hlen := (numTokenAt_rest_length hA).2
          simp only [List.length_cons] at hlen h1 h2
          dsimp only
          rw [ih gr.2 f2 (by omega) (by omega)]
        | none =>
          simp only [List.length_cons] at h1 h2
          dsimp only
          exact ih cs f2 (by omega) (by omega)

theorem numTokens_cons_not_digit {c : Char} {cs : Str}
    (h : c.isDigit = false) : numTokens (c :: cs) = numTokens cs := by
  show numTokensAux (c :: cs).length (c :: cs) = _
  simp only [List.length_cons, numTokensAux, numTokenAt, h, Bool.false_eq_true, if_false]
  exact numTokensAux_congr cs.length cs cs.length le_rfl le_rfl

theorem numTokens_step {s : Str} {gr : Str × Str}
    (h : numTokenAt s = some gr) : numTokens s = gr.1 :: numTokens gr.2 := by
  obtain ⟨hpos, hlen⟩ := numTokenAt_rest_length h
  cases s with
  | nil => simp at hpos
  | cons c cs =>
    show numTokensAux (c :: cs).length (c :: cs) = _
    simp only [List.length_cons, numTokensAux, h]
    simp only [List.length_cons] at hlen
    rw [numTokensAux_congr cs.length gr.2 gr.2.length (by omega) le_rfl]
    rfl

/-! ### Dataset Store (the two loaded CSV tables, post-normalization) -/

/-- One rainfall observation row; `state_name` is already lower-cased and
stripped by `load_data`. -/
structure RainRow where
  state_name : Str
  year_month : Str
  rainfall_actual_mm : ℚ
deriving DecidableEq

/-- One groundwater observation row. -/
structure GwRow where
  state_name : Str
  district_name : Str
  year_month : Str
  gw_level_m_bgl : ℚ
deriving DecidableEq

/-- The in-memory Dataset Store. -/
structure DatasetStore where
  rainfall : List RainRow
  groundwater : List GwRow
deriving DecidableEq

/-- Models `get_available_states`: unique non-blank rainfall states, sorted. -/
def get_available_states (store : DatasetStore) : List Str :=
  if store.rainfall.isEmpty then []
  else
    stableSort strLe
      ((dedupFirst (store.rainfall.map (·.state_name))).filter
        (fun s => !s.isEmpty && !(trimStr s).isEmpty))

/-- Models `get_available_districts`: unique non-blank districts of a state,
sorted; empty when the state name is falsy or the table is empty. -/
def get_available_districts (store : DatasetStore) (state : Str) : List Str :=
  if !state.isEmpty && !store.groundwater.isEmpty then
    stableSort strLe
      ((dedupFirst ((store.groundwater.filter (·.state_name == state)).map
          (·.district_name))).filter
        (fun d => !d.isEmpty && !(trimStr d).isEmpty))
  else []

/-- Python truthiness of an optional string (`None` and `""` are falsy). -/
def truthyS (o : Option Str) : Bool :=
  match o with
  | none => false
  | some s => !s.isEmpty

/-- Python truthiness of an optional float (`None` and `0.0` are falsy). -/
def truthyQ (o : Option ℚ) : Bool :=
  match o with
  | none => false
  | some q => decide (q ≠ 0)

/-- Models `get_rainfall_data`: truthiness-guarded equality filters
(`if state:`, `if year_month:`). -/
def get_rainfall_data (store : DatasetStore) (state ym : Option Str) :
    List RainRow :=
  let d1 := if truthyS state then store.rainfall.filter (·.state_name == state.getD [])
            else store.rainfall
  if truthyS ym then d1.filter (·.year_month == ym.getD []) else d1

/-- Models `get_groundwater_data`: truthiness-guarded filters on state,
district and period. -/
def get_groundwater_data (store : DatasetStore)
    (state district ym : Option Str) : List GwRow :=
  let d1 := if truthyS state then store.groundwater.filter (·.state_name == state.getD [])
            else store.groundwater
  let d2 := if truthyS district then d1.filter (·.district_name == district.getD []) else d1
  if truthyS ym then d2.filter (·.year_month == ym.getD []) else d2

/-! ### Entity extraction -/

/-- The transient extracted-entities record. -/
structure Entities where
  state : Option Str
  district : Option Str
  year : Option Str
  month : Option Str
  number : Option ℚ
deriving DecidableEq

/-- The `[2000, 2030]` numeric range reserved for years
(`2000 <= num <= 2030` in the source). -/
def inYearRange (q : ℚ) : Bool := decide ((2000 : ℚ) ≤ q) && decide (q ≤ (2030 : ℚ))

/-- Models `GroundwaterChatbot.extract_entities`. -/
def extract_entities (store : DatasetStore) (text : Str) : Entities :=
  let tl := lowerStr text
  let st := (get_available_states store).find? (fun s => containsSub tl s)
  let di := match st with
    | some s => (get_available_districts store s).find? (fun d => containsSub tl d)
    | none => none
  let yr := yearSearch none text
  let mo := (monthSearch none text).map (fun g => g.2 ++ '-' :: g.1)
  let nu := ((numTokens text).map parseDec).find? (fun q => !inYearRange q)
  { state := st, district := di, year := yr, month := mo, number := nu }

/-! ### Trend & Projection Engine -/

/-- A calendar period (pandas timestamps carry a day too, but
`pd.to_datetime("YYYY-MM")` always yields day 1, which the program never
reads). -/
structure Date where
  year : ℕ
  month : ℕ
deriving DecidableEq

/-- Models `"YYYY-MM"` parsing (`pd.to_datetime` on the dataset's canonical
period strings). -/
def parseDate (s : Str) : Date :=
  ⟨digitsToNat (s.take 4), digitsToNat ((s.drop 5).take 2)⟩

/-- Models `date.replace(...)` month advance: December rolls to January. -/
def nextMonth (d : Date) : Date :=
  if d.month == 12 then ⟨d.year + 1, 1⟩ else ⟨d.year, d.month + 1⟩

/-- Zero-padded decimal digits. -/
def padNum (w n : ℕ) : Str :=
  let ds := Nat.toDigits 10 n
  List.replicate (w - ds.length) '0' ++ ds

/-- Models `strftime("%Y-%m")`. -/
def formatDate (d : Date) : Str := padNum 4 d.year ++ '-' :: padNum 2 d.month

/-- The two floating-point library operations the engine consumes, left
abstract because every claim holds for all of them: `sinq m` models
`np.sin(2 * np.pi * m / 12)` and `sqrtq` the square root inside a
standard deviation. -/
structure FloatOps where
  sinq : ℕ → ℚ
  sqrtq : ℚ → ℚ

def dateLe (a b : Date) : Bool :=
  decide (a.year < b.year) || (a.year == b.year && decide (a.month ≤ b.month))

/-- Python `round(x, k)` (round half to even), on exact rationals. -/
def roundHalfEven (x : ℚ) : ℤ :=
  let n := ⌊x⌋
  let f := x - n
  if f < 1 / 2 then n
  else if 1 / 2 < f then n + 1
  else if n % 2 == 0 then n else n + 1

/-- Models `round(x, k)` to `k` decimal places. -/
def roundQ (k : ℕ) (x : ℚ) : ℚ := (roundHalfEven (x * (10 : ℚ) ^ k) : ℚ) / (10 : ℚ) ^ k

/-- Models `np.mean` / `pandas.Series.mean` of a list (the program only applies
it to non-empty lists; the empty case, `NaN` in NumPy, is modelled as 0
and is unreachable from any claim). -/
def listMean (l : List ℚ) : ℚ := if l.isEmpty then 0 else l.sum / l.length

/-- Sample variance (`pandas` default `ddof=1`); for fewer than two
points pandas yields `NaN`, modelled as 0 — the source guards the only
claim-relevant uses. -/
def sampleVar (l : List ℚ) : ℚ :=
  if l.length ≤ 1 then 0
  else
    let m := listMean l
    (l.map (fun y => (y - m) ^ 2)).sum / (l.length - 1 : ℕ)

/-- Least-squares slope of values against 0-based indices
(`np.polyfit(x, y, 1)[0]`, modelled exactly). -/
def slopeLSQ (ys : List ℚ) : ℚ :=
  let n : ℚ := ys.length
  let xs : List ℚ := (List.range ys.length).map (fun i => (i : ℚ))
  let sx := xs.sum
  let sy := ys.sum
  let sxy := (List.zipWith (· * ·) xs ys).sum
  let sxx := (xs.map (fun x => x ^ 2)).sum
  (n * sxy - sx * sy) / (n * sxx - sx ^ 2)

/-- The Trend summary record. -/
structure TrendSummary where
  trend : ℚ
  seasonality : ℚ
  volatility : ℚ
deriving DecidableEq

/-- Models `GroundwaterChatbot.analyze_trends` on a (date, value) series. -/
def analyze_trends (ops : FloatOps) (data : List (Date × ℚ)) : TrendSummary :=
  if data.isEmpty then ⟨0, 0, 0⟩
  else
    let d := stableSort (fun a b => dateLe a.1 b.1) data
    let ys := d.map Prod.snd
    let trend := if 1 < ys.length then slopeLSQ ys else 0
    let months := dedupFirst (d.map (fun p => p.1.month))
    let monthlyAvg := months.map (fun m =>
      listMean ((d.filter (fun p => p.1.month == m)).map Prod.snd))
    let seasonality := if 1 < monthlyAvg.length then ops.sqrtq (sampleVar monthlyAvg) else 0
    let volatility := ops.sqrtq (sampleVar ys)
    ⟨roundQ 4 trend, roundQ 2 seasonality, roundQ 2 volatility⟩

/-- A projection point. -/
structure ProjPoint where
  date : Str
  value : ℚ
  confidence : ℚ
deriving DecidableEq

/-- The result record of `predict_future_values`; `trend_analysis` is
`none` for the empty `{}` dict the source returns on empty input. -/
structure PredictResult where
  predictions : List ProjPoint
  confidence : ℚ
  trend_analysis : Option TrendSummary
deriving DecidableEq

/-- The projection loop of `predict_future_values` (`for i in
range(1, months_ahead + 1)`); `k` counts the remaining iterations. -/
def projLoop (ops : FloatOps) (trend seas : ℚ) :
    Date → ℚ → ℕ → ℕ → List ProjPoint
  | _, _, _, 0 => []
  | d, v, i, Nat.succ k =>
    let nd := nextMonth d
    let pv := (v + trend * i) * (1 + seas * (1 / 10) * ops.sinq nd.month)
    { date := formatDate nd, value := roundQ 2 pv,
      confidence := max (3 / 10) (1 - i * (1 / 20)) } ::
      projLoop ops trend seas nd pv (i + 1) k

/-- Models `GroundwaterChatbot.predict_future_values`. -/
def predict_future_values (ops : FloatOps) (data : List (Date × ℚ))
    (months_ahead : ℕ) : PredictResult :=
  if data.isEmpty then ⟨[], 0, none⟩
  else
    let d := stableSort (fun a b => dateLe a.1 b.1) data
    let ta := analyze_trends ops d
    let latest_value := (d.map Prod.snd).getLastD 0
    let latest_date := (d.map Prod.fst).getLastD ⟨0, 0⟩
    let preds := projLoop ops ta.trend ta.seasonality latest_date latest_value 1 months_ahead
    ⟨preds, roundQ 2 (listMean (preds.map (·.confidence))), some ta⟩

/-! ### Number and string formatting -/

/-- Decimal digits of a natural number. -/
def natStr (n : ℕ) : Str := Nat.toDigits 10 n

/-- Python `f"{x:.kf}"` fixed-point formatting, exact-rational model of
the float formatting (round half to even; the float sign of a negative
value that rounds to zero is not modelled, which no claim exercises). -/
def formatFixed (k : ℕ) (q : ℚ) : Str :=
  let n := roundHalfEven (q * (10 : ℚ) ^ k)
  let sgn : Str := if n < 0 then ['-'] else []
  let ds := padNum (k + 1) n.natAbs
  if k == 0 then sgn ++ ds
  else sgn ++ ds.take (ds.length - k) ++ '.' :: ds.drop (ds.length - k)

/-- Python `f"{x:+.kf}"` (explicit sign). -/
def signedFixed (k : ℕ) (q : ℚ) : Str :=
  let n := roundHalfEven (q * (10 : ℚ) ^ k)
  (if n < 0 then [] else ['+']) ++ formatFixed k q

/-- Python `f"{x:.1%}"`. -/
def percent1 (q : ℚ) : Str := formatFixed 1 (q * 100) ++ ['%']

/-- Smallest decimal scale `k` (bounded fuel) with `q * 10^k` integral. -/
def decScaleAux (q : ℚ) (k : ℕ) : ℕ → ℕ
  | 0 => k
  | Nat.succ fuel => if (q * (10 : ℚ) ^ k).den == 1 then k else decScaleAux q (k + 1) fuel

/-- Python `f"{x}"` / `repr` of a float, modelled for the terminating
decimal values this program produces: integers print with a trailing
`.0`, other decimals print exactly with no trailing zeros. -/
def reprQ (q : ℚ) : Str :=
  let sgn : Str := if q < 0 then ['-'] else []
  let a := |q|
  let k := decScaleAux a 0 30
  let m := (a * (10 : ℚ) ^ k).num.natAbs
  if k == 0 then sgn ++ natStr m ++ ['.', '0']
  else
    let ds := padNum (k + 1) m
    sgn ++ ds.take (ds.length - k) ++ '.' :: ds.drop (ds.length - k)

/-- Models `f"{district.title()}, {state.title()}" if district else state.title()`. -/
def locationStr (state : Str) (district : Option Str) : Str :=
  if truthyS district then titleStr (district.getD []) ++ ',' :: ' ' :: titleStr state
  else titleStr state

/-- Mean of pandas `diff()` (the leading `NaN` is skipped by `mean()`);
an empty difference list, `NaN` in pandas, is modelled as 0 — not on any
claim's path. -/
def diffMean (l : List ℚ) : ℚ := listMean (List.zipWith (fun a b => a - b) (l.drop 1) l)

/-! ### The chatbot, its fixed response strings and its handlers -/

/-- The chatbot's state: the Dataset Store, the Predictor Adapter
(`None` when `joblib.load` failed) and the abstracted float operations. -/
structure Chatbot where
  store : DatasetStore
  model : Option (ℚ → ℚ → ℚ)
  ops : FloatOps

/-- Models `GroundwaterChatbot.predict_groundwater` (the unused `state`
argument of the source is kept; model exceptions are not modelled). -/
def predict_groundwater (cb : Chatbot) (_state : Str) (rainfall lag : ℚ) :
    Option ℚ :=
  match cb.model with
  | none => none
  | some f => some (roundQ 2 (f rainfall lag))

/-- The three canned greetings of `get_greeting_response`. -/
def greetings : List Str :=
  [s2l "Hello! I\x27m your Groundwater Assistant. I can help you with groundwater and rainfall data analysis, predictions, and insights. What would you like to know?",
   s2l "Hi there! I\x27m here to help you understand groundwater levels, rainfall patterns, and make predictions. How can I assist you today?",
   s2l "Welcome! I\x27m your AI assistant for groundwater monitoring. I can provide data insights, predictions, and answer questions about water resources. What\x27s on your mind?"]

/-- Models `get_greeting_response`: `np.random.choice(greetings)`, with the
random draw modelled as an explicit index. -/
def get_greeting_response (choice : ℕ) : Str := greetings.getD (choice % 3) []

/-- Models `get_help_response`. -/
def helpResponse : Str :=
  s2l "\n🤖 **I can help you with:**\n\n📊 **Data Queries:**\n- \"What\x27s the rainfall in Maharashtra?\"\n- \"Show me groundwater levels in Delhi\"\n- \"Rainfall data for 2023\"\n\n🔮 **Predictions:**\n- \"Predict groundwater level for next month\"\n- \"What will be the water level if rainfall is 100mm?\"\n\n🔮 **Future Estimates:**\n- \"Future rainfall forecast for Maharashtra\"\n- \"What will be the groundwater levels in Karnataka next year?\"\n- \"Estimate rainfall for Delhi for 2025\"\n- \"Coming months forecast for Mumbai\"\n\n📈 **Trends & Analysis:**\n- \"Show rainfall trends in Karnataka\"\n- \"Compare groundwater levels between states\"\n- \"How has rainfall changed over time?\"\n\n🗺️ **Geographic Queries:**\n- \"Which states have the highest rainfall?\"\n- \"Groundwater levels by district\"\n- \"Show me districts in Maharashtra\"\n- \"Groundwater in Mumbai district\"\n\n💡 **Tips:**\n- Be specific about states, districts, or time periods\n- Ask for comparisons between different regions\n- Request predictions with rainfall values\n\n**Example queries:**\n- \"Rainfall in Tamil Nadu for 2023\"\n- \"Predict groundwater level for Maharashtra with 150mm rainfall\"\n- \"Compare groundwater levels between Delhi and Mumbai\"\n        "

/-- Models `get_default_response`. -/
def defaultResponse : Str :=
  s2l "\n🤔 **I didn\x27t quite understand that query.**\n\nHere are some things I can help you with:\n\n🌧️ **Rainfall Data:** Ask about rainfall in specific states or time periods\n💧 **Groundwater Levels:** Query groundwater data by state or district  \n🔮 **Predictions:** Get groundwater level predictions based on rainfall\n📊 **Comparisons:** Compare data between different regions\n📈 **Trends:** Analyze how water levels change over time\n\n**Try asking:**\n- \"What\x27s the rainfall in Maharashtra?\"\n- \"Show me groundwater levels in Delhi\"\n- \"Predict groundwater level for Karnataka with 120mm rainfall\"\n\nType **\x27help\x27** for more detailed information about my capabilities!\n        "

/-- The model-unavailable answer of `handle_prediction_query`. -/
def modelUnavailableMsg : Str :=
  s2l "❌ **Prediction Model Unavailable:**\n\nThe prediction model is not loaded. Please check if the model file exists."

/-- The prediction-failure answer. -/
def predictionFailedMsg : Str :=
  s2l "❌ **Prediction Failed:**\n\nUnable to generate prediction. Please check the input parameters."

/-- The usage prompt of `handle_prediction_query`. -/
def predictionPrompt : Str :=
  s2l "🔮 **Prediction Query:**\n\nPlease provide both state and rainfall value. For example:\n- \x27Predict groundwater level for Maharashtra with 150mm rainfall\x27\n- \x27What will be the water level in Delhi if rainfall is 100mm?\x27\n- \x27Predict groundwater for Mumbai district with 120mm rainfall for 2024\x27"

/-- The usage prompt of `handle_rainfall_query`. -/
def rainfallPrompt : Str :=
  s2l "🌧️ **Rainfall Query:**\n\nPlease specify a state. For example:\n- \x27Rainfall in Maharashtra\x27\n- \x27Show rainfall data for Karnataka\x27\n- \x27Rainfall in Delhi for 2023-06\x27"

/-- The usage prompt of `handle_groundwater_query`. -/
def groundwaterPrompt : Str :=
  s2l "💧 **Groundwater Query:**\n\nPlease specify a state or district. For example:\n- \x27Groundwater levels in Maharashtra\x27\n- \x27Show groundwater data for Delhi\x27\n- \x27Groundwater in Mumbai for 2023-06\x27"

/-- Models `handle_comparison_query` (a stub in the source). -/
def comparisonResponse : Str :=
  s2l "📊 **Comparison Feature:**\n\nTo compare data between states or districts, please ask specific questions like:\n- \x27Compare rainfall between Maharashtra and Karnataka\x27\n- \x27Which state has higher groundwater levels?\x27\n\n*Note: Advanced comparison features are being developed.*"

/-- The usage prompt of `handle_trend_query`. -/
def trendPrompt : Str :=
  s2l "📈 **Trend Analysis:**\n\nPlease specify a state for trend analysis. For example:\n- \x27Show rainfall trends in Maharashtra\x27\n- \x27Groundwater trends in Karnataka\x27"

/-- The usage prompt of `handle_district_query`. -/
def districtPrompt : Str :=
  s2l "📍 **District Query:**\n\nPlease specify a state to see its districts. For example:\n- \x27Show me districts in Maharashtra\x27\n- \x27What districts are in Karnataka?\x27"

/-- The usage prompt of `handle_future_prediction_query`. -/
def futurePrompt : Str :=
  s2l "🔮 **Future Prediction Query:**\n\nPlease specify a state for future predictions. For example:\n- \x27Future rainfall forecast for Maharashtra\x27\n- \x27What will be the groundwater levels in Karnataka next year?\x27\n- \x27Estimate rainfall for Delhi for 2025\x27"

/-- Models `handle_rainfall_query`. -/
def handle_rainfall_query (store : DatasetStore) (ents : Entities) : Str :=
  if truthyS ents.state then
    let st := ents.state.getD []
    let data := get_rainfall_data store ents.state ents.month
    if !data.isEmpty then
      if truthyS ents.month then
        let avg := listMean (data.map (·.rainfall_actual_mm))
        s2l "🌧️ **Rainfall in " ++ titleStr st ++ s2l " for " ++ ents.month.getD [] ++
          s2l ":**\n\nAverage rainfall: **" ++ formatFixed 2 avg ++ s2l " mm**"
      else
        let latest := tailN 12 (stableSort (fun a b => strLe a.year_month b.year_month) data)
        let avg := listMean (latest.map (·.rainfall_actual_mm))
        s2l "🌧️ **Recent Rainfall in " ++ titleStr st ++
          s2l ":**\n\nAverage rainfall (last 12 months): **" ++ formatFixed 2 avg ++
          s2l " mm**\n\nLatest data available: " ++ (latest.map (·.year_month)).getLastD []
    else s2l "❌ No rainfall data found for " ++ titleStr st
  else rainfallPrompt

/-- Models `handle_groundwater_query`. -/
def handle_groundwater_query (store : DatasetStore) (ents : Entities) : Str :=
  if truthyS ents.state then
    let st := ents.state.getD []
    let data := get_groundwater_data store ents.state ents.district ents.month
    if !data.isEmpty then
      if truthyS ents.month then
        let avg := listMean (data.map (·.gw_level_m_bgl))
        s2l "💧 **Groundwater Level in " ++ locationStr st ents.district ++ s2l " for " ++
          ents.month.getD [] ++ s2l ":**\n\nAverage groundwater level: **" ++
          formatFixed 2 avg ++ s2l " m bgl**"
      else
        let latest := tailN 12 (stableSort (fun a b => strLe a.year_month b.year_month) data)
        let avg := listMean (latest.map (·.gw_level_m_bgl))
        s2l "💧 **Recent Groundwater Levels in " ++ locationStr st ents.district ++
          s2l ":**\n\nAverage groundwater level (last 12 months): **" ++ formatFixed 2 avg ++
          s2l " m bgl**\n\nLatest data available: " ++ (latest.map (·.year_month)).getLastD []
    else s2l "❌ No groundwater data found for " ++ locationStr st ents.district
  else groundwaterPrompt

/-- Models `handle_prediction_query`. -/
def handle_prediction_query (cb : Chatbot) (ents : Entities) : Str :=
  match cb.model with
  | none => modelUnavailableMsg
  | some _ =>
    if truthyS ents.state && truthyQ ents.number then
      let st := ents.state.getD []
      let rv := ents.number.getD 0
      let latest := tailN 1 (stableSort (fun a b => strLe a.year_month b.year_month)
        (get_groundwater_data cb.store ents.state ents.district none))
      if !latest.isEmpty then
        let lag := (latest.map (·.gw_level_m_bgl)).headD 0
        match predict_groundwater cb st rv lag with
        | some p =>
          s2l "🔮 **Groundwater Prediction for " ++ locationStr st ents.district ++
            (if truthyS ents.year then s2l " for " ++ ents.year.getD [] else []) ++
            s2l ":**\n\n**Input Parameters:**\n- Rainfall: " ++ reprQ rv ++
            s2l " mm\n- Current groundwater level: " ++ formatFixed 2 lag ++ s2l " m bgl\n" ++
            (if truthyS ents.district then
              s2l "- Location: " ++ titleStr (ents.district.getD []) ++ s2l " district\n"
             else []) ++
            (if truthyS ents.year then s2l "- Year: " ++ ents.year.getD [] ++ s2l "\n" else []) ++
            s2l "\n**Predicted groundwater level:** **" ++ reprQ p ++
            s2l " m bgl**\n\n*Note: This is a machine learning prediction based on historical data.*"
        | none => predictionFailedMsg
      else
        s2l "❌ **No Historical Data:**\n\nNo groundwater data found for " ++
          locationStr st ents.district ++ s2l " to use as baseline for prediction."
    else predictionPrompt

/-- Models `handle_trend_query`. -/
def handle_trend_query (store : DatasetStore) (ents : Entities) : Str :=
  if truthyS ents.state then
    let st := ents.state.getD []
    let rd := tailN 24 (stableSort (fun a b => strLe a.year_month b.year_month)
      (get_rainfall_data store ents.state none))
    let gd := tailN 24 (stableSort (fun a b => strLe a.year_month b.year_month)
      (get_groundwater_data store ents.state none none))
    if !rd.isEmpty && !gd.isEmpty then
      let rt := diffMean (rd.map (·.rainfall_actual_mm))
      let gt := diffMean (gd.map (·.gw_level_m_bgl))
      s2l "📈 **Trend Analysis for " ++ titleStr st ++ s2l ":**\n\n**Rainfall Trend:** " ++
        signedFixed 2 rt ++ s2l " mm/month\n**Groundwater Trend:** " ++ signedFixed 2 gt ++
        s2l " m bgl/month\n\n" ++
        (if 0 < rt then s2l "📈 Rainfall is increasing over time\n"
         else s2l "📉 Rainfall is decreasing over time\n") ++
        (if 0 < gt then s2l "📈 Groundwater levels are rising (good for water availability)\n"
         else s2l "📉 Groundwater levels are declining (concerning for water availability)\n")
    else
      s2l "❌ **Insufficient Data:**\n\nNot enough data available for trend analysis in " ++
        titleStr st
  else trendPrompt

/-- Models `handle_district_query`. -/
def handle_district_query (store : DatasetStore) (ents : Entities) : Str :=
  if truthyS ents.state then
    let st := ents.state.getD []
    let districts := get_available_districts store st
    if !districts.isEmpty then
      s2l "📍 **Districts in " ++ titleStr st ++ s2l ":**\n\n" ++
        List.intercalate (s2l "\n") ((districts.take 10).map (fun d => s2l "- " ++ titleStr d)) ++
        (if 10 < districts.length then
          s2l "\n\n... and " ++ natStr (districts.length - 10) ++ s2l " more districts"
         else []) ++
        s2l "\n\n**Total districts:** " ++ natStr districts.length ++
        s2l "\n\n💡 **Tip:** Ask for specific district data like:\n- \x27Groundwater levels in " ++
        titleStr (districts.headD []) ++ s2l "\x27"
    else s2l "❌ **No Districts Found:**\n\nNo district data available for " ++ titleStr st
  else districtPrompt

/-- Models `handle_future_prediction_query`. -/
def handle_future_prediction_query (cb : Chatbot) (ents : Entities) : Str :=
  let months_ahead : ℕ :=
    if truthyS ents.year then
      (max 1 (min (((digitsToNat (ents.year.getD []) : ℤ) - 2024) * 12) 60)).toNat
    else 12
  if truthyS ents.state then
    let st := ents.state.getD []
    let rd := get_rainfall_data cb.store ents.state none
    let gd := get_groundwater_data cb.store ents.state ents.district none
    if !rd.isEmpty && !gd.isEmpty then
      let rp := predict_future_values cb.ops
        ((tailN 36 rd).map (fun r => (parseDate r.year_month, r.rainfall_actual_mm))) months_ahead
      let gp := predict_future_values cb.ops
        ((tailN 36 gd).map (fun r => (parseDate r.year_month, r.gw_level_m_bgl))) months_ahead
      s2l "🔮 **Future Predictions for " ++ locationStr st ents.district ++ s2l ":**\n\n" ++
        (match rp.trend_analysis with
         | some t =>
            s2l "**📊 Trend Analysis:**\n- Rainfall trend: " ++ signedFixed 4 t.trend ++
              s2l " mm/month\n- Seasonality: " ++ formatFixed 2 t.seasonality ++
              s2l "\n- Volatility: " ++ formatFixed 2 t.volatility ++ s2l "\n\n"
         | none => []) ++
        s2l "**📅 Next 6 Months Forecast:**\n" ++
        (((rp.predictions.take 6).zip (gp.predictions.take 6)).map (fun pg =>
          s2l "- **" ++ pg.1.date ++ s2l ":**\n  • Rainfall: " ++ formatFixed 1 pg.1.value ++
            s2l " mm (confidence: " ++ percent1 pg.1.confidence ++
            s2l ")\n  • Groundwater: " ++ formatFixed 2 pg.2.value ++
            s2l " m bgl (confidence: " ++ percent1 pg.2.confidence ++ s2l ")\n")).flatten ++
        (if 6 < months_ahead then
          s2l "\n**📈 Long-term Projection (" ++ natStr months_ahead ++ s2l " months):**\n- **" ++
            (rp.predictions.getLastD ⟨[], 0, 0⟩).date ++ s2l ":**\n  • Expected rainfall: " ++
            formatFixed 1 (rp.predictions.getLastD ⟨[], 0, 0⟩).value ++
            s2l " mm\n  • Expected groundwater: " ++
            formatFixed 2 (gp.predictions.getLastD ⟨[], 0, 0⟩).value ++ s2l " m bgl\n"
         else []) ++
        s2l "\n**⚠️ Confidence Level:** " ++ percent1 ((rp.confidence + gp.confidence) / 2) ++
        s2l "\n*Note: Predictions are based on historical trends and may not account for extreme weather events or human interventions.*"
    else
      s2l "❌ **Insufficient Data:**\n\nNot enough historical data available for future predictions in " ++
        locationStr st ents.district ++ s2l "."
  else futurePrompt

/-! ### Intent routing -/

/-- Keyword containment test of the router
(`any(word in user_input_lower for word in [...])`). -/
def anyKeyword (tl : Str) (ws : List Str) : Bool := ws.any (fun w => containsSub tl w)

def greetingWords : List Str :=
  [s2l "hello", s2l "hi", s2l "hey", s2l "good morning", s2l "good afternoon", s2l "good evening"]

def helpWords : List Str :=
  [s2l "help", s2l "what can you do", s2l "commands", s2l "features"]

def futureWords : List Str :=
  [s2l "future", s2l "forecast", s2l "next year", s2l "coming months", s2l "estimate", s2l "projection"]

def predictWords : List Str := [s2l "predict", s2l "what will be"]

def rainWords : List Str := [s2l "rainfall", s2l "rain", s2l "precipitation"]

def gwWords : List Str := [s2l "groundwater", s2l "water level", s2l "gw level"]

def compareWords : List Str := [s2l "compare", s2l "comparison", s2l "vs", s2l "versus"]

def trendWords : List Str := [s2l "trend", s2l "trends", s2l "over time", s2l "change"]

def districtWords : List Str := [s2l "district", s2l "districts", s2l "show me districts"]

/-- Models `GroundwaterChatbot.generate_response`, the `answer` entry point.
`choice` is the explicit model of the `np.random.choice` draw inside the
greeting handler; the dead duplicate future-prediction check of the
source (it sits below the first one) is kept verbatim. -/
def generate_response (cb : Chatbot) (choice : ℕ) (text : Str) : Str :=
  let tl := lowerStr text
  let ents := extract_entities cb.store text
  if anyKeyword tl greetingWords then get_greeting_response choice
  else if anyKeyword tl helpWords then helpResponse
  else if anyKeyword tl futureWords then handle_future_prediction_query cb ents
  else if anyKeyword tl predictWords then handle_prediction_query cb ents
  else if anyKeyword tl rainWords && !anyKeyword tl futureWords then
    handle_rainfall_query cb.store ents
  else if anyKeyword tl gwWords then handle_groundwater_query cb.store ents
  else if anyKeyword tl compareWords then comparisonResponse
  else if anyKeyword tl trendWords then handle_trend_query cb.store ents
  else if anyKeyword tl districtWords then handle_district_query cb.store ents
  else if anyKeyword tl futureWords then handle_future_prediction_query cb ents
  else defaultResponse

/-! ### Shared concrete fixtures used by witnesses and counterexamples -/

/-- Degenerate float operations (the claims hold for all `FloatOps`). -/
def ops0 : FloatOps := ⟨fun _ => 0, fun _ => 0⟩

/-- The empty Dataset Store. -/
def store0 : DatasetStore := ⟨[], []⟩

/-- A one-state store (state "delhi", one district). -/
def storeD : DatasetStore :=
  ⟨[⟨s2l "delhi", s2l "2023-01", 10⟩],
   [⟨s2l "delhi", s2l "central", s2l "2023-01", 5⟩]⟩

/-- A two-state store (states "delhi" and "goa"). -/
def storeDG : DatasetStore :=
  ⟨[⟨s2l "delhi", s2l "2023-01", 10⟩, ⟨s2l "goa", s2l "2023-01", 3⟩], []⟩

/-- A chatbot whose Predictor Adapter failed to load (`model is None`). -/
def cbNoModel : Chatbot := ⟨storeD, none, ops0⟩

/-- A chatbot with a loaded predictor. -/
def cbModel : Chatbot := ⟨storeD, some (fun r l => r + l), ops0⟩

/-! ### Supporting lemmas -/

theorem find?_exists_of_mem {α} {p : α → Bool} :
    ∀ {l : List α} {x : α}, x ∈ l → p x = true →
      ∃ y, l.find? p = some y ∧ y ∈ l ∧ p y = true := by
  intro l
  induction l with
  | nil => intro x hx _; simp at hx
  | cons a as ih =>
    intro x hx hp
    by_cases ha : p a = true
    · exact ⟨a, by rw [List.find?_cons_of_pos _ ha], by simp, ha⟩
    · rcases List.mem_cons.mp hx with rfl | hx'
      · exact absurd hp ha
      · obtain ⟨y, hy, hmem, hpy⟩ := ih hx' hp
        refine ⟨y, ?_, by simp [hmem], hpy⟩
        rw [List.find?_cons_of_neg _ (by simpa using ha), hy]

theorem find?_of_first {α} {p : α → Bool} :
    ∀ (l : List α) (i : ℕ) (x : α), l[i]? = some x → p x = true →
      (∀ j y, j < i → l[j]? = some y → p y = false) → l.find? p = some x := by
  intro l
  induction l with
  | nil => intro i x hx; simp at hx
  | cons a as ih =>
    intro i x hx hp hearlier
    cases i with
    | zero =>
      simp only [List.getElem?_cons_zero, Option.some.injEq] at hx
      subst hx
      rw [List.find?_cons_of_pos _ hp]
    | succ i' =>
      have ha : p a = false := hearlier 0 a (Nat.succ_pos _) (by simp)
      rw [List.find?_cons_of_neg _ (by simp [ha])]
      refine ih i' x (by simpa using hx) hp ?_
      intro j y hj hy
      exact hearlier (j + 1) y (by omega) (by simpa using hy)

theorem projLoop_length (ops : FloatOps) (t s : ℚ) :
    ∀ (k i : ℕ) (d : Date) (v : ℚ), (projLoop ops t s d v i k).length = k := by
  intro k
  induction k with
  | zero => intro i d v; rfl
  | succ k ih => intro i d v; simp [projLoop, ih]

theorem projLoop_conf (ops : FloatOps) (t s : ℚ) :
    ∀ (k j i : ℕ) (d : Date) (v : ℚ), j < k →
      ∃ p, (projLoop ops t s d v i k)[j]? = some p ∧
        p.confidence = max ((3 : ℚ) / 10) (1 - ((i + j : ℕ) : ℚ) * (1 / 20)) := by
  intro k
  induction k with
  | zero => intro j i d v hj; omega
  | succ k ih =>
    intro j i d v hj
    cases j with
    | zero =>
      refine ⟨⟨formatDate (nextMonth d),
        roundQ 2 ((v + t * i) * (1 + s * (1 / 10) * ops.sinq (nextMonth d).month)),
        max ((3 : ℚ) / 10) (1 - (i : ℚ) * (1 / 20))⟩, ?_, ?_⟩
      · simp [projLoop]
      · simp
    | succ j' =>
      obtain ⟨p, hp, hc⟩ := ih j' (i + 1) (nextMonth d)
        ((v + t * i) * (1 + s * (1 / 10) * ops.sinq (nextMonth d).month)) (by omega)
      refine ⟨p, ?_, ?_⟩
      · simp only [projLoop, List.getElem?_cons_succ]
        exact hp
      · rw [hc, show i + 1 + j' = i + (j' + 1) from by omega]

theorem exists_projLoop_eq (ops : FloatOps) (data : List (Date × ℚ)) (m : ℕ)
    (hE : data.isEmpty = false) :
    ∃ t s d v, (predict_future_values ops data m).predictions = projLoop ops t s d v 1 m := by
  refine ⟨(analyze_trends ops (stableSort (fun a b => dateLe a.1 b.1) data)).trend,
    (analyze_trends ops (stableSort (fun a b => dateLe a.1 b.1) data)).seasonality,
    ((stableSort (fun a b => dateLe a.1 b.1) data).map Prod.fst).getLastD ⟨0, 0⟩,
    ((stableSort (fun a b => dateLe a.1 b.1) data).map Prod.snd).getLastD 0, ?_⟩
  simp [predict_future_values, hE]

/-! ### Claims about the Trend & Projection Engine (C6, C7, C8) -/

/-- C6 (counterexample): on the empty series `predict_future_values`
returns `trend_analysis = {}` (modelled `none`), not the zero-valued
Trend summary `{trend: 0, seasonality: 0, volatility: 0}` the claim
states. -/
theorem c6_counterexample :
    (predict_future_values ops0 [] 12).predictions = [] ∧
    (predict_future_values ops0 [] 12).trend_analysis = none ∧
    (predict_future_values ops0 [] 12).trend_analysis ≠
      some ⟨0, 0, 0⟩ := by
  refine ⟨rfl, rfl, by decide⟩

/-- C6 (amended): on the empty series `predict_future_values` returns an
empty projection sequence, overall confidence 0 and an *empty*
trend-analysis record; the zero-valued Trend summary is what
`analyze_trends` itself returns on an empty series. -/
theorem c6_amended (ops : FloatOps) (m : ℕ) :
    predict_future_values ops [] m = ⟨[], 0, none⟩ ∧
    analyze_trends ops [] = ⟨0, 0, 0⟩ :=
  ⟨rfl, rfl⟩

/-- C7 (counterexample): for the one-point series anchored at 2024-01
and horizon 15, the 14th and 15th projection points both have confidence
3/10, so consecutive confidences do not strictly decrease. -/
theorem c7_counterexample :
    ((predict_future_values ops0 [(⟨2024, 1⟩, (5 : ℚ))] 15).predictions.map
        (·.confidence))[13]? = some (3 / 10) ∧
    ((predict_future_values ops0 [(⟨2024, 1⟩, (5 : ℚ))] 15).predictions.map
        (·.confidence))[14]? = some (3 / 10) ∧
    ¬((3 : ℚ) / 10 < 3 / 10) := by
  refine ⟨by with_unfolding_all decide, by with_unfolding_all decide,
    by with_unfolding_all decide⟩

/-- C7 (amended): for every non-empty series, consecutive projection
confidences are non-increasing, and strictly decrease as long as the
earlier one is still above the 3/10 floor. -/
theorem c7_amended (ops : FloatOps) (data : List (Date × ℚ)) (m i : ℕ)
    (hne : data ≠ []) (p q : ProjPoint)
    (hp : (predict_future_values ops data m).predictions[i]? = some p)
    (hq : (predict_future_values ops data m).predictions[i + 1]? = some q) :
    q.confidence ≤ p.confidence ∧
    ((3 : ℚ) / 10 < p.confidence → q.confidence < p.confidence) := by
  have hE : data.isEmpty = false := by
    cases data with
    | nil => exact absurd rfl hne
    | cons a as => rfl
  obtain ⟨t, s, d, v, hpreds⟩ := exists_projLoop_eq ops data m hE
  rw [hpreds] at hp hq
  have hi1 : i + 1 < m := by
    have := List.getElem?_eq_some.mp hq
    obtain ⟨hlt, -⟩ := this
    rwa [projLoop_length] at hlt
  obtain ⟨p', hp', hcp⟩ := projLoop_conf ops t s m i 1 d v (by omega)
  obtain ⟨q', hq', hcq⟩ := projLoop_conf ops t s m (i + 1) 1 d v (by omega)
  rw [hp] at hp'
  rw [hq] at hq'
  cases Option.some.inj hp'
  cases Option.some.inj hq'
  have hstep : (1 - ((1 + (i + 1) : ℕ) : ℚ) * (1 / 20)) <
      (1 - ((1 + i : ℕ) : ℚ) * (1 / 20)) := by
    push_cast
    linarith
  constructor
  · rw [hcp, hcq]
    exact max_le_max le_rfl (le_of_lt hstep)
  · intro hfloor
    rw [hcp] at hfloor ⊢
    rw [hcq]
    exact max_lt hfloor (lt_of_lt_of_le hstep (le_max_right _ _))

/-- C7 (witness): the amended statement at a concrete series/horizon. -/
theorem c7_witness :
    ∃ p q,
      (predict_future_values ops0 [(⟨2024, 1⟩, (5 : ℚ))] 2).predictions[0]? = some p ∧
      (predict_future_values ops0 [(⟨2024, 1⟩, (5 : ℚ))] 2).predictions[1]? = some q ∧
      q.confidence ≤ p.confidence ∧
      ((3 : ℚ) / 10 < p.confidence → q.confidence < p.confidence) := by
  have hp : (predict_future_values ops0 [(⟨2024, 1⟩, (5 : ℚ))] 2).predictions[0]? =
      some ⟨s2l "2024-02", 5, 19 / 20⟩ := by with_unfolding_all decide
  have hq : (predict_future_values ops0 [(⟨2024, 1⟩, (5 : ℚ))] 2).predictions[1]? =
      some ⟨s2l "2024-03", 5, 9 / 10⟩ := by with_unfolding_all decide
  exact ⟨_, _, hp, hq,
    c7_amended ops0 [(⟨2024, 1⟩, (5 : ℚ))] 2 0 (by decide) _ _ hp hq⟩

/-- C8 (confirmed): for every non-empty series and horizon `1 ≤ h ≤ 60`,
the `i`-th projection point (`1 ≤ i ≤ h`) has confidence exactly
`max(0.3, 1 - 0.05 * i)`; consequently it never drops below 3/10 and the
next point's confidence (when it exists) is not larger. -/
theorem c8_confidence_formula (ops : FloatOps) (data : List (Date × ℚ)) (h i : ℕ)
    (hne : data ≠ []) (h1 : 1 ≤ h) (h60 : h ≤ 60) (hi1 : 1 ≤ i) (hih : i ≤ h) :
    ∃ p, (predict_future_values ops data h).predictions[i - 1]? = some p ∧
      p.confidence = max ((3 : ℚ) / 10) (1 - (i : ℚ) * (1 / 20)) ∧
      (3 : ℚ) / 10 ≤ p.confidence ∧
      ∀ q, (predict_future_values ops data h).predictions[i]? = some q →
        q.confidence ≤ p.confidence := by
  have hE : data.isEmpty = false := by
    cases data with
    | nil => exact absurd rfl hne
    | cons a as => rfl
  obtain ⟨t, s, d, v, hpreds⟩ := exists_projLoop_eq ops data h hE
  rw [hpreds]
  obtain ⟨p, hp, hcp⟩ := projLoop_conf ops t s h (i - 1) 1 d v (by omega)
  have hidx : 1 + (i - 1) = i := by omega
  rw [hidx] at hcp
  refine ⟨p, hp, hcp, by rw [hcp]; exact le_max_left _ _, ?_⟩
  intro q hq
  have hi2 : i < h := by
    have := List.getElem?_eq_some.mp hq
    obtain ⟨hlt, -⟩ := this
    rwa [projLoop_length] at hlt
  obtain ⟨q', hq', hcq⟩ := projLoop_conf ops t s h i 1 d v (by omega)
  rw [hq] at hq'
  cases Option.some.inj hq'
  rw [hcp, hcq]
  refine max_le_max le_rfl ?_
  push_cast
  linarith

/-- C8 (witness): the formula at a concrete series, horizon 12, i = 3. -/
theorem c8_witness :
    ∃ p, (predict_future_values ops0 [(⟨2024, 1⟩, (5 : ℚ))] 12).predictions[3 - 1]? = some p ∧
      p.confidence = max ((3 : ℚ) / 10) (1 - (3 : ℚ) * (1 / 20)) ∧
      (3 : ℚ) / 10 ≤ p.confidence ∧
      ∀ q, (predict_future_values ops0 [(⟨2024, 1⟩, (5 : ℚ))] 12).predictions[3]? = some q →
        q.confidence ≤ p.confidence :=
  c8_confidence_formula ops0 [(⟨2024, 1⟩, (5 : ℚ))] 12 3 (by decide) (by decide)
    (by decide) (by decide) (by decide)

/-! ### Claims about the router and the greeting intent (C9, C2, C1) -/

/-- C9 (confirmed): greeting keyword detection is raw substring
containment, so any text whose lower-casing contains "hi" — e.g. any
mention of Delhi — is answered with a greeting, whatever else it says. -/
theorem c9_hi_substring_greeting (cb : Chatbot) (choice : ℕ) (text : Str)
    (h : containsSub (lowerStr text) (s2l "hi") = true) :
    generate_response cb choice text = get_greeting_response choice ∧
    get_greeting_response choice ∈ greetings := by
  have hg : anyKeyword (lowerStr text) greetingWords = true := by
    unfold anyKeyword
    exact List.any_eq_true.mpr ⟨s2l "hi", by simp [greetingWords], h⟩
  constructor
  · simp [generate_response, hg]
  · have h3 : choice % 3 < 3 := Nat.mod_lt _ (by norm_num)
    rcases (by omega : choice % 3 = 0 ∨ choice % 3 = 1 ∨ choice % 3 = 2) with h' | h' | h' <;>
      simp [get_greeting_response, h', greetings]

/-- C9 (witness): the ML-prediction query about Delhi is answered with a
greeting because "delhi" contains "hi". -/
theorem c9_witness :
    containsSub (lowerStr (s2l "Predict groundwater level for Delhi with 100mm rainfall"))
      (s2l "hi") = true ∧
    generate_response cbModel 2 (s2l "Predict groundwater level for Delhi with 100mm rainfall")
      = get_greeting_response 2 :=
  ⟨by decide,
   (c9_hi_substring_greeting cbModel 2
     (s2l "Predict groundwater level for Delhi with 100mm rainfall") (by decide)).1⟩

/-- C2 (counterexample): `answer` is not a deterministic function of the
text and the Dataset Store — the greeting handler draws one of three
strings with `np.random.choice`, so two calls on "hello" can differ. -/
theorem c2_counterexample :
    generate_response cbNoModel 0 (s2l "hello") ≠
    generate_response cbNoModel 1 (s2l "hello") := by
  decide

/-- C2 (amended): for every input whose lower-casing contains no greeting
keyword, `answer` is a deterministic function of the text and the loaded
data — the random greeting draw is the only source of nondeterminism. -/
theorem c2_amended_deterministic (cb : Chatbot) (text : Str) (c1 c2 : ℕ)
    (h : anyKeyword (lowerStr text) greetingWords = false) :
    generate_response cb c1 text = generate_response cb c2 text := by
  simp [generate_response, h]

/-- C2 (witness): the amended determinism at the query "help". -/
theorem c2_witness :
    anyKeyword (lowerStr (s2l "help")) greetingWords = false ∧
    generate_response cbNoModel 0 (s2l "help") = generate_response cbNoModel 1 (s2l "help") :=
  ⟨by decide, c2_amended_deterministic cbNoModel (s2l "help") 0 1 (by decide)⟩

/-- C1 (code bug): with the Predictor Adapter unavailable, the query
"Predict groundwater level for Delhi with 100mm rainfall" never reaches
`handle_prediction_query`: the greeting check fires first because
"delhi" contains "hi", so a random greeting is returned instead of the
model-unavailable message (the source's own help text lists such Delhi
prediction queries as canonical prediction examples). -/
theorem c1_greeting_shadows_model_unavailable :
    generate_response cbNoModel 0 (s2l "Predict groundwater level for Delhi with 100mm rainfall")
      = get_greeting_response 0 ∧
    generate_response cbNoModel 0 (s2l "Predict groundwater level for Delhi with 100mm rainfall")
      ≠ modelUnavailableMsg ∧
    handle_prediction_query cbNoModel
      (extract_entities storeD (s2l "Predict groundwater level for Delhi with 100mm rainfall"))
      = modelUnavailableMsg := by
  refine ⟨by decide, by decide, rfl⟩

/-! ### Claims about unknown locations and state extraction (C5, C3) -/

/-- The `.state` field of the extraction is the first vocabulary state
occurring in the lower-cased input. -/
theorem extract_state_def (store : DatasetStore) (text : Str) :
    (extract_entities store text).state =
      (get_available_states store).find? (fun s => containsSub (lowerStr text) s) := rfl

/-- C5 (counterexample): for a store that has no data for "xyz" (and no
state occurring in the text), `answer("Groundwater levels in xyz")`
returns the generic groundwater usage prompt — which does not mention
"xyz" and is not a "no data found" message. -/
theorem c5_counterexample :
    generate_response cbModel 0 (s2l "Groundwater levels in xyz") = groundwaterPrompt ∧
    containsSub (generate_response cbModel 0 (s2l "Groundwater levels in xyz"))
      (s2l "xyz") = false ∧
    containsSub groundwaterPrompt (s2l "no data") = false := by
  refine ⟨by decide, by decide, by decide⟩

/-- C5 (amended): whenever no vocabulary state occurs in the text and the
text matches the groundwater intent (and none of the higher-precedence
intents), `answer` returns the groundwater usage prompt — not a
"no data found for xyz" message — and no prediction is attempted. -/
theorem c5_amended_usage_prompt (cb : Chatbot) (choice : ℕ) (text : Str)
    (h1 : anyKeyword (lowerStr text) greetingWords = false)
    (h2 : anyKeyword (lowerStr text) helpWords = false)
    (h3 : anyKeyword (lowerStr text) futureWords = false)
    (h4 : anyKeyword (lowerStr text) predictWords = false)
    (h5 : anyKeyword (lowerStr text) rainWords = false)
    (h6 : anyKeyword (lowerStr text) gwWords = true)
    (h7 : ∀ s ∈ get_available_states cb.store, containsSub (lowerStr text) s = false) :
    generate_response cb choice text = groundwaterPrompt := by
  have hstate : (extract_entities cb.store text).state = none := by
    rw [extract_state_def]
    apply List.find?_eq_none.mpr
    intro s hs
    simp [h7 s hs]
  simp [generate_response, h1, h2, h3, h4, h5, h6,
    handle_groundwater_query, hstate, truthyS]

/-- C5 (witness): the amended statement at the concrete query. -/
theorem c5_witness :
    generate_response cbModel 0 (s2l "Groundwater levels in xyz") = groundwaterPrompt :=
  c5_amended_usage_prompt cbModel 0 (s2l "Groundwater levels in xyz")
    (by decide) (by decide) (by decide) (by decide) (by decide) (by decide) (by decide)

/-- C3 (counterexample): the state scan returns the first match of the
sorted vocabulary, not the state the user named: for vocabulary
{delhi, goa}, the text "goa and delhi" contains "goa" but extraction
returns "delhi". -/
theorem c3_counterexample :
    s2l "goa" ∈ get_available_states storeDG ∧
    containsSub (lowerStr (s2l "goa and delhi")) (s2l "goa") = true ∧
    (extract_entities storeDG (s2l "goa and delhi")).state = some (s2l "delhi") ∧
    some (s2l "delhi") ≠ some (s2l "goa") := by
  refine ⟨by decide, by decide, by decide, by decide⟩

/-- C3 (amended): if a vocabulary state occurs (case-insensitively) in
the text then the extraction's `state` field is populated with *some*
vocabulary state occurring in the text — the first match in the sorted
scan order, which need not be the given state. -/
theorem c3_amended_first_match (store : DatasetStore) (text : Str) (s : Str)
    (hmem : s ∈ get_available_states store)
    (hsub : containsSub (lowerStr text) s = true) :
    ∃ t, (extract_entities store text).state = some t ∧
      t ∈ get_available_states store ∧ containsSub (lowerStr text) t = true := by
  rw [extract_state_def]
  obtain ⟨y, hy, hmy, hpy⟩ := find?_exists_of_mem hmem hsub
  exact ⟨y, hy, hmy, hpy⟩

/-- C3 (witness): the amended statement at a concrete store and text. -/
theorem c3_witness :
    ∃ t, (extract_entities storeDG (s2l "rain in goa")).state = some t ∧
      t ∈ get_available_states storeDG ∧
      containsSub (lowerStr (s2l "rain in goa")) t = true :=
  c3_amended_first_match storeDG (s2l "rain in goa") (s2l "goa") (by decide) (by decide)

/-! ### Claims about number/year extraction (C4, C10) -/

/-- The `.number` field of the extraction is the first numeric token
whose value lies outside `[2000, 2030]`. -/
theorem extract_number_def (store : DatasetStore) (text : Str) :
    (extract_entities store text).number =
      ((numTokens text).map parseDec).find? (fun q => !inYearRange q) := rfl

/-- The `.year` field of the extraction is the year-regex search. -/
theorem extract_year_def (store : DatasetStore) (text : Str) :
    (extract_entities store text).year = yearSearch none text := rfl

/-- C4 (counterexample): the reserved range is `[2000, 2030]`, not
`[2000, 2029]`: the token 2030 satisfies the claim's `N > 2029`
hypothesis, yet it is not placed in `number` and it *is* returned as
`year`. -/
theorem c4_counterexample :
    ((2030 : ℚ) < 2000 ∨ (2029 : ℚ) < 2030) ∧
    (extract_entities store0 (s2l "2030")).number = none ∧
    (extract_entities store0 (s2l "2030")).year = some (s2l "2030") := by
  refine ⟨by norm_num, by with_unfolding_all decide, by decide⟩

/-- C4 (amended): the `number` field receives the first numeric token
whose value is outside `[2000, 2030]` (boundary 2030 included, unlike
the claim's 2029), and never receives a token inside `[2000, 2030]`;
independently, the `year` field is set by the `20\d\d` regex, so a
token in `[2031, 2099]` can appear as both `number` and `year`. -/
theorem c4_amended_number_range (store : DatasetStore) (text : Str) :
    (∀ q, (extract_entities store text).number = some q →
      ¬((2000 : ℚ) ≤ q ∧ q ≤ 2030)) ∧
    (∀ (i : ℕ) (q : ℚ), ((numTokens text).map parseDec)[i]? = some q →
      (q < 2000 ∨ 2030 < q) →
      (∀ (j : ℕ) (r : ℚ), j < i → ((numTokens text).map parseDec)[j]? = some r →
        (2000 : ℚ) ≤ r ∧ r ≤ 2030) →
      (extract_entities store text).number = some q) := by
  constructor
  · intro q hq
    rw [extract_number_def] at hq
    have hp := List.find?_some hq
    simp only [inYearRange, Bool.not_eq_true', Bool.and_eq_false_iff,
      decide_eq_false_iff_not] at hp
    rcases hp with hp | hp
    · exact fun hc => hp hc.1
    · exact fun hc => hp hc.2
  · intro i q hq hout hearlier
    rw [extract_number_def]
    refine find?_of_first _ i q hq ?_ ?_
    · simp only [inYearRange, Bool.not_eq_true']
      rcases hout with hout | hout
      · simp [decide_eq_false_iff_not, not_le.mpr hout]
      · simp [decide_eq_false_iff_not, not_le.mpr hout]
    · intro j y hj hy
      have := hearlier j y hj hy
      simp [inYearRange, decide_eq_true_eq, this.1, this.2]

/-- C4 (witness): in "2016 and 17mm" the first token 2016 lies inside
the reserved range, so the second token 17 becomes the number, and it is
indeed outside `[2000, 2030]`. -/
theorem c4_witness :
    (extract_entities store0 (s2l "2016 and 17mm")).number = some 17 ∧
    ¬((2000 : ℚ) ≤ 17 ∧ (17 : ℚ) ≤ 2030) := by
  have hb := (c4_amended_number_range store0 (s2l "2016 and 17mm")).2 1 17
    (by with_unfolding_all decide)
    (by norm_num)
    (by
      intro j r hj hr
      have hj0 : j = 0 := by omega
      subst hj0
      rw [show ((numTokens (s2l "2016 and 17mm")).map parseDec)[0]? = some (2016 : ℚ) from
        by with_unfolding_all decide] at hr
      cases Option.some.inj hr
      constructor <;> norm_num)
  exact ⟨hb, (c4_amended_number_range store0 (s2l "2016 and 17mm")).1 17 hb⟩

/-- The boundary state after scanning `pre` (the previous character seen
by the regex engine, if any). -/
def prevAfter : Str → Option Char → Option Char
  | [], p => p
  | c :: cs, _ => prevAfter cs (some c)

/-- Whether the character after a candidate token (if any) breaks a
word: absent or a non-word character. -/
def headBoundary (s : Str) : Bool :=
  match s with
  | [] => true
  | c :: _ => !isWordChar c

theorem digit_toNat_bounds {c : Char} (h : c.isDigit = true) :
    48 ≤ c.toNat ∧ c.toNat ≤ 57 := by
  simp only [Char.isDigit, ge_iff_le, Bool.and_eq_true, decide_eq_true_eq] at h
  obtain ⟨h1, h2⟩ := h
  rw [UInt32.le_def, BitVec.le_def] at h1 h2
  exact ⟨h1, h2⟩

theorem not_word_not_digit {c : Char} (h : isWordChar c = false) :
    c.isDigit = false := by
  simp only [isWordChar, Char.isAlphanum, Bool.or_eq_false_iff] at h
  exact h.1.2

theorem yearAt_head_not_digit {c : Char} {l : Str} (prev : Option Char)
    (h : c.isDigit = false) : yearAt prev (c :: l) = none := by
  have hc : c ≠ '2' := by
    intro hc
    subst hc
    simp at h
  unfold yearAt
  split
  · next a b rest heq =>
    exact absurd (List.cons.inj heq).1 hc
  · rfl

theorem yearSearch_append :
    ∀ (pre : Str) (prev : Option Char) (rest : Str),
      (∀ ch ∈ pre, ch.isDigit = false) →
      yearSearch prev (pre ++ rest) = yearSearch (prevAfter pre prev) rest := by
  intro pre
  induction pre with
  | nil => intro prev rest _; rfl
  | cons ch pre' ih =>
    intro prev rest h
    rw [List.cons_append]
    show yearSearch prev (ch :: (pre' ++ rest)) = _
    simp only [yearSearch, yearAt_head_not_digit prev (h ch (by simp))]
    exact ih (some ch) rest (fun c hc => h c (by simp [hc]))

theorem numTokens_append :
    ∀ (pre rest : Str), (∀ ch ∈ pre, ch.isDigit = false) →
      numTokens (pre ++ rest) = numTokens rest := by
  intro pre
  induction pre with
  | nil => intro rest _; rfl
  | cons ch pre' ih =>
    intro rest h
    rw [List.cons_append, numTokens_cons_not_digit (h ch (by simp))]
    exact ih rest (fun c hc => h c (by simp [hc]))

theorem takeDigits_cons_not_digit {c : Char} {cs : Str} (h : c.isDigit = false) :
    takeDigits (c :: cs) = ([], c :: cs) := by
  simp [takeDigits, h]

theorem takeDigits_head_free {s : Str} (h : headBoundary s = true) :
    takeDigits s = ([], s) := by
  cases s with
  | nil => rfl
  | cons c cs =>
    simp only [headBoundary, Bool.not_eq_true'] at h
    exact takeDigits_cons_not_digit (not_word_not_digit h)

theorem beq_char_false {c x : Char} (hw : isWordChar c = false)
    (hx : isWordChar x = true) : (c == x) = false := by
  rcases Bool.eq_false_or_eq_true (c == x) with h | h
  · rw [beq_iff_eq.mp h] at hw
    rw [hw] at hx
    cases hx
  · exact h

theorem consumeUnit_head_free {s : Str} (h : headBoundary s = true) :
    consumeUnit s = s := by
  cases s with
  | nil => rfl
  | cons c cs =>
    have hw : isWordChar c = false := by simpa [headBoundary] using h
    have hm : (c == 'm') = false := beq_char_false hw (by decide)
    have hc : (c == 'c') = false := beq_char_false hw (by decide)
    have hk : (c == 'k') = false := beq_char_false hw (by decide)
    cases cs with
    | nil => simp [consumeUnit, hm]
    | cons d r => simp [consumeUnit, hm, hc, hk]

theorem numTokenAt_year_range_token (a b c d : Char) (post : Str)
    (ha : a.isDigit = true) (hb : b.isDigit = true)
    (hc : c.isDigit = true) (hd : d.isDigit = true)
    (hpost : headBoundary post = true) :
    numTokenAt ('2' :: '0' :: a :: b :: '-' :: c :: d :: post) =
      some (['2', '0', a, b], '-' :: c :: d :: post) := by
  have htd : takeDigits ('0' :: a :: b :: '-' :: c :: d :: post) =
      (['0', a, b], '-' :: c :: d :: post) := by
    simp [takeDigits, ha, hb]
  have hb2 : headBoundary ('-' :: c :: d :: post) = true := by
    simp only [headBoundary]
    decide
  simp only [numTokenAt, htd, show ('2').isDigit = true from by decide, if_true]
  simp only [show (('-' :: c :: d :: post).head? == some '.') = false from by
    simp [List.head?], Bool.false_eq_true, if_false]
  rw [consumeUnit_head_free hb2]

theorem numTokenAt_suffix_token (c d : Char) (post : Str)
    (hc : c.isDigit = true) (hd : d.isDigit = true)
    (hpost : headBoundary post = true) (hdot : post.head? ≠ some '.') :
    numTokenAt (c :: d :: post) = some ([c, d], post) := by
  have htp : takeDigits post = ([], post) := takeDigits_head_free hpost
  have htd : takeDigits (d :: post) = ([d], post) := by
    simp [takeDigits, hd, htp]
  have hdot2 : (post.head? == some '.') = false := by
    rcases Bool.eq_false_or_eq_true (post.head? == some '.') with h | h
    · exact absurd (beq_iff_eq.mp h) hdot
    · exact h
  simp only [numTokenAt, hc, if_true, htd, hdot2, Bool.false_eq_true, if_false]
  rw [consumeUnit_head_free hpost]

theorem digitsToNat_two_lt (c d : Char) (hc : c.isDigit = true) (hd : d.isDigit = true) :
    digitsToNat [c, d] < 100 := by
  obtain ⟨-, hc2⟩ := digit_toNat_bounds hc
  obtain ⟨-, hd2⟩ := digit_toNat_bounds hd
  simp only [digitsToNat, List.foldl]
  omega

theorem yearAt_year_range (prev : Option Char) (a b c d : Char) (post : Str)
    (hbnd : boundaryOk prev = true) (ha : a.isDigit = true) (hb : b.isDigit = true) :
    yearAt prev ('2' :: '0' :: a :: b :: '-' :: c :: d :: post) = some ['2', '0', a, b] := by
  simp only [yearAt, hbnd, ha, hb, Bool.and_self, if_true]
  rw [show isWordChar '-' = false from by decide]
  simp

/-- C10 (counterexample): the claim's hypothesis allows earlier tokens
inside `[2000, 2030]`, but `re.search` takes the *first* year-pattern
match: in "2020 2016-17" the year is "2020", not the range token's
leading "2016" (the number is still the suffix 17). -/
theorem c10_counterexample :
    (extract_entities store0 (s2l "2020 2016-17")).year = some (s2l "2020") ∧
    s2l "2020" ≠ s2l "2016" ∧
    (extract_entities store0 (s2l "2020 2016-17")).number = some 17 := by
  refine ⟨by decide, by decide, by with_unfolding_all decide⟩

/-- C10 (amended): if the year-range token `20ab-cd` (leading year in
`[2000, 2030]`) is preceded only by digit-free text ending at a word
boundary — so it is both the first year-pattern match and the first
numeric token — and is followed by a word boundary that is not a decimal
dot, then `year` is the leading 4-digit year and `number` is the 2-digit
suffix read as a float. -/
theorem c10_amended_first_year (store : DatasetStore) (pre post : Str) (a b c d : Char)
    (hpre : ∀ ch ∈ pre, ch.isDigit = false)
    (hbnd : boundaryOk (prevAfter pre none) = true)
    (ha : a.isDigit = true) (hb : b.isDigit = true)
    (hc : c.isDigit = true) (hd : d.isDigit = true)
    (hY : inYearRange (parseDec ['2', '0', a, b]) = true)
    (hpost : headBoundary post = true)
    (hdot : post.head? ≠ some '.') :
    (extract_entities store (pre ++ '2' :: '0' :: a :: b :: '-' :: c :: d :: post)).year =
      some ['2', '0', a, b] ∧
    (extract_entities store (pre ++ '2' :: '0' :: a :: b :: '-' :: c :: d :: post)).number =
      some (parseDec [c, d]) := by
  constructor
  · rw [extract_year_def, yearSearch_append pre none _ hpre]
    simp only [yearSearch, yearAt_year_range _ a b c d post hbnd ha hb]
  · rw [extract_number_def, numTokens_append pre _ hpre]
    have h1 := numTokens_step (numTokenAt_year_range_token a b c d post ha hb hc hd hpost)
    have h2 : numTokens ('-' :: c :: d :: post) = numTokens (c :: d :: post) :=
      numTokens_cons_not_digit (by decide)
    have h3 := numTokens_step (numTokenAt_suffix_token c d post hc hd hpost hdot)
    rw [h1]
    dsimp only at h2 h3 ⊢
    rw [h2, h3]
    have hlt : parseDec [c, d] < 2000 := by
      have hpd : parseDec [c, d] = (digitsToNat [c, d] : ℚ) := by
        simp [parseDec, takeDigits, hc, hd]
      have hn : digitsToNat [c, d] < 2000 :=
        lt_of_lt_of_le (digitsToNat_two_lt c d hc hd) (by norm_num)
      rw [hpd]
      exact_mod_cast hn
    have hIR : inYearRange (parseDec [c, d]) = false := by
      simp only [inYearRange, Bool.and_eq_false_iff]
      left
      simpa using not_le.mpr hlt
    simp only [List.map_cons]
    rw [List.find?_cons_of_neg _ (by simp [hY]),
      List.find?_cons_of_pos _ (by simp [hIR])]

/-- C10 (witness): the amended statement for "in 2016-17 rain". -/
theorem c10_witness :
    (extract_entities store0
        ((s2l "in ") ++ '2' :: '0' :: '1' :: '6' :: '-' :: '1' :: '7' :: (s2l " rain"))).year =
      some ['2', '0', '1', '6'] ∧
    (extract_entities store0
        ((s2l "in ") ++ '2' :: '0' :: '1' :: '6' :: '-' :: '1' :: '7' :: (s2l " rain"))).number =
      some (parseDec ['1', '7']) :=
  c10_amended_first_year store0 (s2l "in ") (s2l " rain") '1' '6' '1' '7'
    (by decide) (by decide) (by decide) (by decide) (by decide) (by decide)
    (by with_unfolding_all decide) (by decide) (by decide)
